import Mathlib

/-!
Shallow embedding of the BotwController firmware (src/src/main.cpp): the
capacitive touch sensing primitive `timeSensePinChargeDischarge`, its
debounce wrapper `waitForPedestalTouch`, and the light sequencer state
machine driven by `loop`, together with theorems checking the specified
properties.

Modelling conventions:
* Machine integers (`uint32_t`, `uint8_t`) are represented as `Nat`;
  the one operation that can overflow (the fade-in `b += step` on a
  `uint8_t`) reduces mod 256 explicitly.  `uint32_t` values in the touch
  routine stay far below `2 ^ 32` because they are capped by the timeout
  constant, so no reduction is needed there.
* The sense pin is a hardware input.  Its behaviour during one
  measurement is abstracted by two numbers `k1 k2 : Nat`: the number of
  busy-loop iterations for which the pin condition of the corresponding
  `while` loop keeps holding (a pin that never flips behaves exactly
  like any `k` at or above `timeout`, because the accumulator cap stops
  the loop first).
* `cli` / `sei` and the accumulator increments are recorded in an event
  trace so that interrupt discipline is provable.
* `fadeToBlackBy`, `fill_solid` and `CRGB` come from the external
  FastLED library, whose source is not part of this repository; they are
  modelled from the spec where noted.
-/

namespace BotwController

/-- TOUCH_SAMPLE_TIMEOUT: timeout ceiling for one touch sample. -/
def TOUCH_SAMPLE_TIMEOUT : Nat := 100000

/-- SEQUENTIAL_TOUCH_SAMPLES_TO_TRIGGER: consecutive qualifying samples
needed to confirm a touch. -/
def SEQUENTIAL_TOUCH_SAMPLES_TO_TRIGGER : Nat := 5

/-- LED_COUNT: number of LEDs on the strip. -/
def LED_COUNT : Nat := 5

/-- A FastLED color triple.  Channels are `uint8_t` values represented as
natural numbers kept below 256. -/
structure CRGB where
  r : Nat
  g : Nat
  b : Nat
deriving DecidableEq, Inhabited

/-- CRGB::Black. -/
def CRGB.Black : CRGB := ⟨0, 0, 0⟩

/-- CRGB::Blue, color code 0x0000FF, i.e. (r, g, b) = (0, 0, 255). -/
def CRGB.Blue : CRGB := ⟨0, 0, 255⟩

/-- SHRINE_ORANGE is RGB_TO_GRB(0xFF, 0x55, 0x00) = 0x55FF00 as a color
code; a CRGB built from a code takes r from bits 16-23, g from bits 8-15
and b from bits 0-7, so the frame buffer holds (r, g, b) =
(0x55, 0xFF, 0x00). -/
def SHRINE_ORANGE : CRGB := ⟨0x55, 0xFF, 0x00⟩

/-- Events emitted by one touch measurement: interrupt disable (`cli()`),
one accumulator increment inside a busy-count loop, interrupt enable
(`sei()`). -/
inductive SenseEvent
  | cli
  | count
  | sei
deriving DecidableEq

/-- One busy-count loop of `timeSensePinChargeDischarge`
(`while (pinCondition && accumulator < timeout) accumulator++;`).
`k` is the number of iterations for which the pin condition keeps
holding.  Returns the final accumulator together with the trace of
increment events. -/
def busyCountTr (timeout : Nat) : Nat → Nat → Nat × List SenseEvent
  | acc, 0 => (acc, [])
  | acc, k + 1 =>
    if acc < timeout then
      let rest := busyCountTr timeout (acc + 1) k
      (rest.1, SenseEvent.count :: rest.2)
    else
      (acc, [])

/-- timeSensePinChargeDischarge: time the charge phase and then the
discharge phase of the sense pin, sharing one accumulator capped at
`timeout`.  `k1` and `k2` abstract the pin behaviour of the two phases.
Returns (return value, final accumulator, event trace): the C++ routine
returns `accumulator < timeout` and passes the accumulator back by
reference; interrupts are disabled before the first counting loop and
re-enabled after the second. -/
def timeSensePinChargeDischarge (acc timeout k1 k2 : Nat) :
    Bool × Nat × List SenseEvent :=
  let p1 := busyCountTr timeout acc k1
  let p2 := busyCountTr timeout p1.1 k2
  (decide (p2.1 < timeout), p2.1,
    SenseEvent.cli :: (p1.2 ++ p2.2 ++ [SenseEvent.sei]))

/-- Interrupt-enabled flag after processing an event trace, starting from
flag `init`: `cli` clears it, `sei` sets it, `count` leaves it. -/
def interruptsEnabledAfter (init : Bool) : List SenseEvent → Bool
  | [] => init
  | SenseEvent.cli :: rest => interruptsEnabledAfter false rest
  | SenseEvent.sei :: rest => interruptsEnabledAfter true rest
  | SenseEvent.count :: rest => interruptsEnabledAfter init rest

/-- A measured total qualifies as a touch when it is below one fifth of
the timeout (`totalCounts < TOUCH_SAMPLE_TIMEOUT / 5`). -/
def touchQualifies (total : Nat) : Bool :=
  total < TOUCH_SAMPLE_TIMEOUT / 5

/-- Update of `sequentialTouches` for one sample in
`waitForPedestalTouch`: increment on a qualifying sample, reset to zero
otherwise. -/
def nextSequentialTouches (seq total : Nat) : Nat :=
  if touchQualifies total then seq + 1 else 0

/-- The light sequencer states (enum LightState). -/
inductive LightState
  | Inactive
  | OrangeSet
  | FadeOut
  | BetweenFades
  | FadeIn
  | BlueSet
  | IdleUntilTouchFinished
deriving DecidableEq, Inhabited

/-- The program state visible to the claims: the light state, the LED
frame buffer, the static fade-in accumulator color, and the pending pin
environment consumed by touch measurements (a list of `(k1, k2)` pairs,
one per measurement). -/
structure SystemState where
  lightState : LightState
  leds : List CRGB
  fadeInColor : CRGB
  touchEnv : List (Nat × Nat)
deriving DecidableEq, Inhabited

/-- The `while (sequentialTouches < SEQUENTIAL_TOUCH_SAMPLES_TO_TRIGGER)`
loop of `waitForPedestalTouch`.  Each iteration measures with a freshly
zeroed accumulator and updates the counter.  Consumes the pin
environment; returns the remaining environment, or `none` when the
environment is exhausted before confirmation (modelling the wait still
blocking). -/
def waitAux : Nat → List (Nat × Nat) → Option (List (Nat × Nat))
  | seq, env =>
    if seq < SEQUENTIAL_TOUCH_SAMPLES_TO_TRIGGER then
      match env with
      | [] => none
      | sample :: rest =>
        waitAux
          (nextSequentialTouches seq
            (timeSensePinChargeDischarge 0 TOUCH_SAMPLE_TIMEOUT
              sample.1 sample.2).2.1)
          rest
    else
      some env

/-- waitForPedestalTouch: block until SEQUENTIAL_TOUCH_SAMPLES_TO_TRIGGER
consecutive qualifying samples are seen, then return true.  The C++
function reads only its local variables and the sense pins, so in the
embedding it consumes `touchEnv` and passes every other component of the
state through.  `none` models the call still blocking (environment
exhausted). -/
def waitForPedestalTouch (st : SystemState) :
    Option (Bool × SystemState) :=
  (waitAux 0 st.touchEnv).map fun rest =>
    (true, { st with touchEnv := rest })

/-- fill_solid(leds, LED_COUNT, c): set every LED of the buffer to `c`. -/
def fill_solid (n : Nat) (c : CRGB) : List CRGB :=
  List.replicate n c

/-- Modelled from the spec: the per-channel decay of FastLED's
`fadeToBlackBy`, external library code not present in src/.  Spec §4.2:
on each tick "uniformly darken every LED by a fixed decay amount", and
§8: the decay clamps at zero with no underflow or wraparound.  `Nat`
subtraction is exactly subtract-with-clamp-at-zero. -/
def fadeColorBy (amt : Nat) (c : CRGB) : CRGB :=
  ⟨c.r - amt, c.g - amt, c.b - amt⟩

/-- Modelled from the spec: fadeToBlackBy(leds, LED_COUNT, amt) applies
the clamped per-channel decay uniformly to every LED. -/
def fadeToBlackBy (leds : List CRGB) (amt : Nat) : List CRGB :=
  leds.map (fadeColorBy amt)

/-- The unique successor of each light state in the fixed cycle of §4.2. -/
def nextLightState : LightState → LightState
  | LightState.Inactive => LightState.OrangeSet
  | LightState.OrangeSet => LightState.FadeOut
  | LightState.FadeOut => LightState.BetweenFades
  | LightState.BetweenFades => LightState.FadeIn
  | LightState.FadeIn => LightState.BlueSet
  | LightState.BlueSet => LightState.IdleUntilTouchFinished
  | LightState.IdleUntilTouchFinished => LightState.Inactive

/-- One iteration of the `for (;;)` loop inside `loop()` (one `switch` on
`lightState`).  `timerReady` is the value `fadeTimer.ready()` would
report on this iteration (the CEveryNMillis timer is wall-clock driven
and therefore an external input to the embedding; `fadeTimer.reset()`
calls have no further observable effect on the embedded state).  In the
Inactive case the blocking `waitForPedestalTouch()` call is modelled as
having returned (it returns `true` whenever it returns); its
non-interference with the rest of the state is proved separately from
its own embedding.  Timed holds (`FastLED.delay`) and `FastLED.show()`
do not change the embedded state. -/
def loopStep (timerReady : Bool) (s : SystemState) : SystemState :=
  match s.lightState with
  | LightState.Inactive =>
    { s with leds := fill_solid LED_COUNT SHRINE_ORANGE,
             lightState := LightState.OrangeSet }
  | LightState.OrangeSet =>
    { s with lightState := LightState.FadeOut }
  | LightState.FadeOut =>
    if timerReady then
      let leds2 := fadeToBlackBy s.leds 20
      let c := leds2.headI
      if (c.r == 0 || c.g == 0) && c.b == 0 then
        { s with leds := leds2, lightState := LightState.BetweenFades }
      else
        { s with leds := leds2 }
    else s
  | LightState.BetweenFades =>
    { s with leds := fill_solid LED_COUNT CRGB.Black,
             fadeInColor := CRGB.Black,
             lightState := LightState.FadeIn }
  | LightState.FadeIn =>
    if timerReady then
      let fc : CRGB :=
        { s.fadeInColor with b := (s.fadeInColor.b + 20) % 256 }
      let leds2 := fill_solid LED_COUNT fc
      if 255 - 20 ≤ leds2.headI.b then
        { s with fadeInColor := fc,
                 leds := fill_solid LED_COUNT CRGB.Blue,
                 lightState := LightState.BlueSet }
      else
        { s with fadeInColor := fc, leds := leds2 }
    else s
  | LightState.BlueSet =>
    { s with leds := fill_solid LED_COUNT CRGB.Black,
             lightState := LightState.IdleUntilTouchFinished }
  | LightState.IdleUntilTouchFinished =>
    { s with lightState := LightState.Inactive }

/-- The state right after `setup()`: the buffer is filled with black and
shown; `lightState` is a zero-initialized global, i.e. Inactive; the
static `fadeInColor` is taken to be black (it is reset in BetweenFades
before its first use, so this choice is unobservable). -/
def setupState (env : List (Nat × Nat)) : SystemState :=
  { lightState := LightState.Inactive,
    leds := fill_solid LED_COUNT CRGB.Black,
    fadeInColor := CRGB.Black,
    touchEnv := env }

/-- The sequence of light states over the first `n` loop iterations from
the setup state, with the timer firing on every poll. -/
def lightTrajectory (n : Nat) : List LightState :=
  (List.range n).map fun k =>
    ((loopStep true)^[k] (setupState [])).lightState

/-- Collapse consecutive repetitions in a list of light states (a state
in which the machine lingers over several loop iterations is recorded
once). -/
def collapseRuns : List LightState → List LightState
  | [] => []
  | [s] => [s]
  | s :: s2 :: rest =>
    if s = s2 then collapseRuns (s2 :: rest)
    else s :: collapseRuns (s2 :: rest)

/-- The frame-buffer invariant: all LED_COUNT entries hold one color. -/
def UniformLeds (s : SystemState) : Prop :=
  ∃ c, s.leds = fill_solid LED_COUNT c

/-- A pin environment for one sample that qualifies as a touch: both
phases complete after 50 iterations, total 100 < 20000. -/
def qualifyingSample : Nat × Nat := (50, 50)

/-- A pin environment for one disqualifying sample: the charge phase
never completes, so the accumulator runs to the timeout. -/
def disqualifyingSample : Nat × Nat := (TOUCH_SAMPLE_TIMEOUT, 0)

/-- Sample sequence for the debounce test: 4 qualifying, 1
disqualifying, then 5 qualifying samples. -/
def debounceEnv10 : List (Nat × Nat) :=
  [qualifyingSample, qualifyingSample, qualifyingSample, qualifyingSample,
   disqualifyingSample,
   qualifyingSample, qualifyingSample, qualifyingSample, qualifyingSample,
   qualifyingSample]

/-- The first nine samples of `debounceEnv10`. -/
def debounceEnv9 : List (Nat × Nat) :=
  debounceEnv10.take 9

/-- A FadeOut state whose first LED, after the tick's fade, has r = 0 and
b = 0 but g = 155 ≠ 0. -/
def fadeOutProbe : SystemState :=
  { lightState := LightState.FadeOut,
    leds := fill_solid LED_COUNT ⟨0, 175, 0⟩,
    fadeInColor := CRGB.Black,
    touchEnv := [] }

/-- A FadeIn state as produced by BetweenFades: black buffer, black
fade-in accumulator. -/
def fadeInStart : SystemState :=
  { lightState := LightState.FadeIn,
    leds := fill_solid LED_COUNT CRGB.Black,
    fadeInColor := CRGB.Black,
    touchEnv := [] }

/-- An idle state whose pending pin environment is the debounce test
sequence of ten samples. -/
def debounceState10 : SystemState :=
  { lightState := LightState.Inactive,
    leds := fill_solid LED_COUNT CRGB.Black,
    fadeInColor := CRGB.Black,
    touchEnv := debounceEnv10 }

/-- The same state with only the first nine samples available. -/
def debounceState9 : SystemState :=
  { debounceState10 with touchEnv := debounceEnv9 }

/-- An idle state with five immediately qualifying samples pending. -/
def touchProbeState : SystemState :=
  { lightState := LightState.Inactive,
    leds := fill_solid LED_COUNT CRGB.Black,
    fadeInColor := CRGB.Black,
    touchEnv := List.replicate 5 qualifyingSample }

/-! ## Helper lemmas -/

/-- Closed form of one busy-count loop: the accumulator advances by at
most `k` and is capped at `timeout`; an accumulator already at or above
`timeout` is untouched. -/
theorem busyCountTr_fst (timeout k acc : Nat) :
    (busyCountTr timeout acc k).1 =
      if acc < timeout then min (acc + k) timeout else acc := by
  induction k generalizing acc with
  | zero =>
    simp only [busyCountTr]
    split <;> omega
  | succ k ih =>
    simp only [busyCountTr]
    split
    · rw [ih]
      split <;> omega
    · simp

/-- The trace of one busy-count loop is one `count` event per
accumulator increment. -/
theorem busyCountTr_snd (timeout k acc : Nat) :
    (busyCountTr timeout acc k).2 =
      List.replicate ((busyCountTr timeout acc k).1 - acc)
        SenseEvent.count := by
  induction k generalizing acc with
  | zero => simp [busyCountTr]
  | succ k ih =>
    simp only [busyCountTr]
    split
    · rw [ih]
      have hle : acc + 1 ≤ (busyCountTr timeout (acc + 1) k).1 := by
        rw [busyCountTr_fst]; split <;> omega
      have hs : (busyCountTr timeout (acc + 1) k).1 - acc =
          ((busyCountTr timeout (acc + 1) k).1 - (acc + 1)) + 1 := by
        omega
      rw [hs, List.replicate_succ]
    · simp

/-- Projection of the final accumulator of one measurement. -/
theorem timeSense_snd_fst (acc timeout k1 k2 : Nat) :
    (timeSensePinChargeDischarge acc timeout k1 k2).2.1 =
      (busyCountTr timeout (busyCountTr timeout acc k1).1 k2).1 := rfl

/-- Projection of the return value of one measurement. -/
theorem timeSense_fst (acc timeout k1 k2 : Nat) :
    (timeSensePinChargeDischarge acc timeout k1 k2).1 =
      decide ((busyCountTr timeout (busyCountTr timeout acc k1).1 k2).1 <
        timeout) := rfl

/-- Projection of the event trace of one measurement. -/
theorem timeSense_trace (acc timeout k1 k2 : Nat) :
    (timeSensePinChargeDischarge acc timeout k1 k2).2.2 =
      SenseEvent.cli ::
        ((busyCountTr timeout acc k1).2 ++
          (busyCountTr timeout (busyCountTr timeout acc k1).1 k2).2 ++
          [SenseEvent.sei]) := rfl

/-- Any trace ending in `sei` leaves interrupts enabled. -/
theorem interruptsEnabledAfter_append_sei (l : List SenseEvent)
    (init : Bool) :
    interruptsEnabledAfter init (l ++ [SenseEvent.sei]) = true := by
  induction l generalizing init with
  | nil => rfl
  | cons e rest ih => cases e <;> simpa [interruptsEnabledAfter] using ih _

/-! ## Claim theorems -/

/-- C3, counterexample: the single-measurement primitive can return true
with a final accumulator of 0 (start value 0, both pin phases complete
with no iterations), so the final accumulator is not strictly between 0
and the timeout as the claim states. -/
theorem botw_C3_counterexample :
    (timeSensePinChargeDischarge 0 TOUCH_SAMPLE_TIMEOUT 0 0).1 = true ∧
    (timeSensePinChargeDischarge 0 TOUCH_SAMPLE_TIMEOUT 0 0).2.1 = 0 := by
  constructor <;> rfl

/-- C3, amended: for every start value and timeout T > 0 and every pin
behaviour, the primitive returns false iff the accumulator is at or
above T at the end of the charge phase or at the end of the discharge
phase; otherwise it returns true and the final accumulator is at least
the start value and strictly below T, hence strictly between 0 and T
whenever the start value is positive. -/
theorem botw_C3_amended (acc T k1 k2 : Nat) (hT : 0 < T) :
    ((timeSensePinChargeDischarge acc T k1 k2).1 = false ↔
      (T ≤ (busyCountTr T acc k1).1 ∨
        T ≤ (timeSensePinChargeDischarge acc T k1 k2).2.1)) ∧
    ((timeSensePinChargeDischarge acc T k1 k2).1 = true →
      acc ≤ (timeSensePinChargeDischarge acc T k1 k2).2.1 ∧
      (timeSensePinChargeDischarge acc T k1 k2).2.1 < T) ∧
    ((timeSensePinChargeDischarge acc T k1 k2).1 = true → 0 < acc →
      0 < (timeSensePinChargeDischarge acc T k1 k2).2.1 ∧
      (timeSensePinChargeDischarge acc T k1 k2).2.1 < T) := by
  simp only [timeSense_fst, timeSense_snd_fst, busyCountTr_fst,
    decide_eq_false_iff_not, decide_eq_true_eq, Nat.not_lt]
  refine ⟨?_, ?_, ?_⟩ <;> split_ifs <;> omega

/-- Witness for C3 (amended) at start 3, timeout 100000, pin phases of
5 and 7 iterations. -/
theorem botw_C3_amended_witness :
    3 ≤ (timeSensePinChargeDischarge 3 100000 5 7).2.1 ∧
    (timeSensePinChargeDischarge 3 100000 5 7).2.1 < 100000 :=
  (botw_C3_amended 3 100000 5 7 (by norm_num)).2.1 (by rfl)

/-- C10: the accumulator is monotonically non-decreasing across one
measurement, and when the start value is already at or above the timeout
both counting phases perform no iterations (no count events at all), the
accumulator is unchanged, and the primitive returns false. -/
theorem botw_C10_accumulator_monotone (acc T k1 k2 : Nat) :
    acc ≤ (timeSensePinChargeDischarge acc T k1 k2).2.1 ∧
    (T ≤ acc →
      (timeSensePinChargeDischarge acc T k1 k2).2.1 = acc ∧
      (timeSensePinChargeDischarge acc T k1 k2).1 = false ∧
      (timeSensePinChargeDischarge acc T k1 k2).2.2 =
        [SenseEvent.cli, SenseEvent.sei]) := by
  constructor
  · rw [timeSense_snd_fst, busyCountTr_fst, busyCountTr_fst]
    split_ifs <;> omega
  · intro hT
    have ha1 : (busyCountTr T acc k1).1 = acc := by
      rw [busyCountTr_fst]; split_ifs <;> omega
    have ha2 : (timeSensePinChargeDischarge acc T k1 k2).2.1 = acc := by
      rw [timeSense_snd_fst, ha1, busyCountTr_fst]; split_ifs <;> omega
    refine ⟨ha2, ?_, ?_⟩
    · rw [timeSense_fst, ha1]
      simp only [decide_eq_false_iff_not, Nat.not_lt]
      rw [busyCountTr_fst]
      split_ifs <;> omega
    · rw [timeSense_trace, busyCountTr_snd, busyCountTr_snd, ha1,
        busyCountTr_fst]
      split_ifs with h
      · omega
      · simp

/-- Witness for C10 with start 7 already above timeout 5. -/
theorem botw_C10_witness :
    (timeSensePinChargeDischarge 7 5 3 4).2.1 = 7 :=
  ((botw_C10_accumulator_monotone 7 5 3 4).2 (by norm_num)).1

/-- C7: every measurement's event trace starts with the interrupt
disable, all accumulator increments of both timing phases happen between
the disable and the enable, the trace ends with the interrupt enable,
and interrupts are enabled at return for every input and every initial
interrupt flag. -/
theorem botw_C7_interrupts (acc T k1 k2 : Nat) (init : Bool) :
    (∃ n, (timeSensePinChargeDischarge acc T k1 k2).2.2 =
      SenseEvent.cli ::
        (List.replicate n SenseEvent.count ++ [SenseEvent.sei])) ∧
    interruptsEnabledAfter init
      (timeSensePinChargeDischarge acc T k1 k2).2.2 = true := by
  constructor
  · refine ⟨((busyCountTr T acc k1).1 - acc) +
      ((busyCountTr T (busyCountTr T acc k1).1 k2).1 -
        (busyCountTr T acc k1).1), ?_⟩
    rw [timeSense_trace, busyCountTr_snd, busyCountTr_snd,
      List.replicate_add]
  · rw [timeSense_trace]
    show interruptsEnabledAfter false
      ((busyCountTr T acc k1).2 ++
        (busyCountTr T (busyCountTr T acc k1).1 k2).2 ++
        [SenseEvent.sei]) = true
    exact interruptsEnabledAfter_append_sei _ _

/-- C1, counterexample: in FadeOut the code checks
`(leds[0].r == 0 || leds[0].g == 0) && leds[0].b == 0` — a disjunction
of r and g.  From first LED (0, 175, 0), one fade tick yields
(0, 155, 0) and the sequencer moves to BetweenFades although the green
channel is 155 ≠ 0, contradicting the claim that the state remains
FadeOut while any channel of the first LED is nonzero. -/
theorem botw_C1_counterexample :
    (loopStep true fadeOutProbe).lightState = LightState.BetweenFades ∧
    (loopStep true fadeOutProbe).leds.headI.g = 155 := by
  constructor <;> rfl

/-- C1, amended: in the FadeOut state, on a timer tick the sequencer
transitions to BetweenFades exactly when, after the tick's fade, the
first LED's blue channel is zero and at least one of its red and green
channels is zero; the only states reachable from FadeOut in one step are
FadeOut itself and BetweenFades. -/
theorem botw_C1_amended (s : SystemState)
    (hs : s.lightState = LightState.FadeOut) :
    ((loopStep true s).lightState = LightState.BetweenFades ↔
      (((fadeToBlackBy s.leds 20).headI.r = 0 ∨
        (fadeToBlackBy s.leds 20).headI.g = 0) ∧
        (fadeToBlackBy s.leds 20).headI.b = 0)) ∧
    ((loopStep true s).lightState = LightState.FadeOut ∨
      (loopStep true s).lightState = LightState.BetweenFades) := by
  obtain ⟨ls, leds, fc, env⟩ := s
  simp only at hs
  subst hs
  simp only [loopStep, if_true]
  split
  · rename_i h
    simp only [Bool.and_eq_true, Bool.or_eq_true, beq_iff_eq] at h
    simp [h]
  · rename_i h
    simp only [Bool.and_eq_true, Bool.or_eq_true, beq_iff_eq] at h
    exact ⟨iff_of_false (by simp) h, Or.inl (by simp)⟩

/-- Witness for C1 (amended) at the concrete FadeOut probe state. -/
theorem botw_C1_amended_witness :
    (loopStep true fadeOutProbe).lightState = LightState.FadeOut ∨
    (loopStep true fadeOutProbe).lightState = LightState.BetweenFades :=
  (botw_C1_amended fadeOutProbe rfl).2

/-- C2: repeated application of the per-tick fade-out decay (modelled
from the spec as subtract 20 per channel, clamped at zero) takes the
all-255 color to all-zero in exactly 13 ticks — after 12 ticks the
channels still hold 15 — black is a fixed point of the decay, and every
tick past the 13th leaves the color at black (no underflow or
wraparound). -/
theorem botw_C2_fadeout_ticks :
    ((fadeColorBy 20)^[13] ⟨255, 255, 255⟩ = CRGB.Black) ∧
    ((fadeColorBy 20)^[12] ⟨255, 255, 255⟩ = ⟨15, 15, 15⟩) ∧
    (fadeColorBy 20 CRGB.Black = CRGB.Black) ∧
    (∀ n, (fadeColorBy 20)^[13 + n] ⟨255, 255, 255⟩ = CRGB.Black) := by
  refine ⟨by decide, by decide, by decide, ?_⟩
  intro n
  induction n with
  | zero => decide
  | succ n ih =>
    show (fadeColorBy 20)^[(13 + n) + 1] ⟨255, 255, 255⟩ = CRGB.Black
    rw [Function.iterate_succ_apply', ih]
    decide

/-- C4: the confirmation counter resets to 0 after any single
disqualifying sample regardless of its prior value; consequently the
debounce wrapper fed 4 qualifying samples, 1 disqualifying sample, then
5 qualifying samples confirms only after consuming all 10 samples
(remaining environment empty), and with only the first 9 samples it has
not confirmed.  Each sample is measured with a freshly zeroed
accumulator by construction of the wrapper. -/
theorem botw_C4_debounce_reset :
    (∀ seq total, touchQualifies total = false →
      nextSequentialTouches seq total = 0) ∧
    waitForPedestalTouch debounceState10 =
      some (true, { debounceState10 with touchEnv := [] }) ∧
    waitForPedestalTouch debounceState9 = none := by
  have hq : (timeSensePinChargeDischarge 0 100000 qualifyingSample.1
      qualifyingSample.2).2.1 = 100 := by rfl
  have hd : (timeSensePinChargeDischarge 0 100000 disqualifyingSample.1
      disqualifyingSample.2).2.1 = 100000 := by
    rw [timeSense_snd_fst, busyCountTr_fst, busyCountTr_fst]
    simp only [disqualifyingSample, TOUCH_SAMPLE_TIMEOUT]
    split_ifs <;> omega
  refine ⟨?_, ?_, ?_⟩
  · intro seq total h
    simp [nextSequentialTouches, h]
  · simp [waitForPedestalTouch, debounceState10, debounceEnv10, waitAux,
      hq, hd, nextSequentialTouches, touchQualifies,
      SEQUENTIAL_TOUCH_SAMPLES_TO_TRIGGER, TOUCH_SAMPLE_TIMEOUT]
  · simp [waitForPedestalTouch, debounceState9, debounceState10,
      debounceEnv9, debounceEnv10, waitAux, hq, hd,
      nextSequentialTouches, touchQualifies,
      SEQUENTIAL_TOUCH_SAMPLES_TO_TRIGGER, TOUCH_SAMPLE_TIMEOUT]

/-- Witness for C4: a disqualifying sample zeroes a counter of 4. -/
theorem botw_C4_witness : nextSequentialTouches 4 99999 = 0 :=
  botw_C4_debounce_reset.1 4 99999 (by rfl)

/-- C5: from the state entering FadeIn (blue channel 0), the sequencer
stays in FadeIn for ticks 0 through 11 (blue channel 220 after tick 11,
below the 235 threshold), and on tick 12 the blue channel reaches 240 ≥
255 - 20, the buffer is snapped to exactly (0, 0, 255) on every LED, and
the state becomes BlueSet. -/
theorem botw_C5_fadein_boundary :
    (∀ k, k < 12 →
      ((loopStep true)^[k] fadeInStart).lightState = LightState.FadeIn) ∧
    ((loopStep true)^[11] fadeInStart).fadeInColor.b = 220 ∧
    ((loopStep true)^[12] fadeInStart).fadeInColor.b = 240 ∧
    ((loopStep true)^[12] fadeInStart).leds =
      fill_solid LED_COUNT CRGB.Blue ∧
    ((loopStep true)^[12] fadeInStart).lightState = LightState.BlueSet := by
  refine ⟨?_, by decide, by decide, by decide, by decide⟩
  decide

/-- Witness for C5 at tick 3. -/
theorem botw_C5_witness :
    ((loopStep true)^[3] fadeInStart).lightState = LightState.FadeIn :=
  botw_C5_fadein_boundary.1 3 (by norm_num)

/-- C6: every loop iteration either keeps the light state or moves it to
its unique successor in the fixed cycle, and from the setup state, with
the touch wait confirming and the periodic timer firing on every poll,
the sequence of states over one full cycle (22 iterations, consecutive
repetitions collapsed) is exactly Inactive, OrangeSet, FadeOut,
BetweenFades, FadeIn, BlueSet, IdleUntilTouchFinished and back to
Inactive: each of the 7 states is visited exactly once. -/
theorem botw_C6_state_machine :
    (∀ (b : Bool) (s : SystemState),
      (loopStep b s).lightState = s.lightState ∨
      (loopStep b s).lightState = nextLightState s.lightState) ∧
    collapseRuns (lightTrajectory 23) =
      [LightState.Inactive, LightState.OrangeSet, LightState.FadeOut,
       LightState.BetweenFades, LightState.FadeIn, LightState.BlueSet,
       LightState.IdleUntilTouchFinished, LightState.Inactive] ∧
    ((loopStep true)^[22] (setupState [])).lightState =
      LightState.Inactive := by
  refine ⟨?_, by decide, by decide⟩
  intro b s
  obtain ⟨ls, leds, fc, env⟩ := s
  cases ls <;> simp [loopStep, nextLightState] <;> split_ifs <;> simp

/-- C8: the debounce wrapper never mutates the light state, the LED
frame buffer or the fade-in color: whenever it returns, every component
of the state other than the consumed pin environment is unchanged and
the only value it produces is the boolean true. -/
theorem botw_C8_touch_frame (st : SystemState) (r : Bool)
    (st2 : SystemState)
    (h : waitForPedestalTouch st = some (r, st2)) :
    st2.lightState = st.lightState ∧ st2.leds = st.leds ∧
    st2.fadeInColor = st.fadeInColor ∧ r = true := by
  unfold waitForPedestalTouch at h
  cases hw : waitAux 0 st.touchEnv with
  | none =>
    rw [hw] at h
    exact Option.noConfusion h
  | some rest =>
    rw [hw] at h
    have h2 : ((true, { st with touchEnv := rest }) : Bool × SystemState) =
        (r, st2) := Option.some.inj h
    have hr : true = r := congrArg Prod.fst h2
    have hst : ({ st with touchEnv := rest } : SystemState) = st2 :=
      congrArg Prod.snd h2
    subst hst
    exact ⟨rfl, rfl, rfl, hr.symm⟩

/-- Witness for C8 on a state with five qualifying samples pending. -/
theorem botw_C8_witness :
    ({ touchProbeState with touchEnv := [] } : SystemState).lightState =
      touchProbeState.lightState ∧
    ({ touchProbeState with touchEnv := [] } : SystemState).leds =
      touchProbeState.leds ∧
    ({ touchProbeState with touchEnv := [] } : SystemState).fadeInColor =
      touchProbeState.fadeInColor ∧
    (true : Bool) = true :=
  botw_C8_touch_frame touchProbeState true
    { touchProbeState with touchEnv := [] } (by rfl)

/-- C9: the all-LEDs-identical invariant holds after setup and is
preserved by every loop iteration in every state, whether or not the
timer fires: each write to the buffer (the solid fills, the uniform
per-tick fade-out, and the per-tick fade-in fills) leaves all LED_COUNT
entries equal. -/
theorem botw_C9_leds_uniform :
    UniformLeds (setupState []) ∧
    (∀ (b : Bool) (s : SystemState),
      UniformLeds s → UniformLeds (loopStep b s)) := by
  constructor
  · exact ⟨CRGB.Black, rfl⟩
  · rintro b ⟨ls, leds, fc, env⟩ ⟨c, hc⟩
    simp only at hc
    subst hc
    cases ls
    · exact ⟨SHRINE_ORANGE, rfl⟩
    · exact ⟨c, rfl⟩
    · simp only [loopStep, UniformLeds]
      split_ifs
      · exact ⟨fadeColorBy 20 c, by
          simp [fadeToBlackBy, fill_solid, List.map_replicate]⟩
      · exact ⟨fadeColorBy 20 c, by
          simp [fadeToBlackBy, fill_solid, List.map_replicate]⟩
      · exact ⟨c, rfl⟩
    · exact ⟨CRGB.Black, rfl⟩
    · simp only [loopStep, UniformLeds]
      split_ifs
      · exact ⟨CRGB.Blue, rfl⟩
      · exact ⟨{ fc with b := (fc.b + 20) % 256 }, rfl⟩
      · exact ⟨c, rfl⟩
    · exact ⟨CRGB.Black, rfl⟩
    · exact ⟨c, rfl⟩

/-- Witness for C9: the invariant survives one step from setup. -/
theorem botw_C9_witness : UniformLeds (loopStep true (setupState [])) :=
  botw_C9_leds_uniform.2 true (setupState []) ⟨CRGB.Black, rfl⟩

end BotwController
